import Mathlib

/-!
Shallow embedding of the coffeecartel-backend user subsystem:
`src/services/userService.mjs` (loginUser, registerUser, updateUserProfile)
and `src/routes/user.mjs` (login, register, updateProfile handlers).
The credential store is modelled as a list of user records; the password
hasher, the token issuer (jsonwebtoken) and the persistence layer's
uniqueness enforcement live outside `src/` and are modelled from the spec.
-/

/-- User record, mirroring the relational schema
`{role, username (unique), hashed_password, fname, lname, email (unique), address}`
of the persistence contract and the fields read by the code. -/
structure User where
  role : String
  username : String
  hashed_password : String
  fname : String
  lname : String
  email : String
  address : String
deriving Repr, DecidableEq

/-- Credential store: the rows of the user table, in insertion order. -/
abbrev Store := List User

/-- Modelled from the spec: `src/utils/hashPassword.mjs` is not under `src/`.
The Password Hasher's one-way hash; modelled as a deterministic tagging so
that verification is executable (the spec only requires that verify succeed
exactly on the hashed plaintext). -/
def hashPassword (p : String) : String := String.append "bcrypt$" p

/-- Modelled from the spec: `src/utils/comparePasswords.mjs` is not under
`src/`. Verification of a plaintext against a stored digest. -/
def comparePasswords (digest p : String) : Bool := digest == hashPassword p

/-- Embeds `UserModel.findOne({ where: { username } })`: first row whose
`username` column matches. -/
def findOne (store : Store) (username : String) : Option User :=
  store.find? (fun u => u.username == username)

/-- Embeds `loginUser` of `src/services/userService.mjs` lines 12-29.
The JS returns `false` both when the user is absent and when the password
mismatches, and returns the user row on success; `false` is rendered as
`none`. The store is threaded to record that the operation performs no
write. -/
def loginUser (store : Store) (username password : String) : Option User × Store :=
  match findOne store username with
  | none => (none, store)
  | some u =>
      if comparePasswords u.hashed_password password then (some u, store)
      else (none, store)

/-- The `fields` object attached to a Sequelize unique-constraint error:
which column(s) the violated constraint names. -/
structure UniqueFields where
  username : Bool
  email : Bool
deriving Repr, DecidableEq

/-- Modelled from the spec: errors of the persistence layer (Sequelize),
which is an external collaborator. `uniqueConstraint` is
`SequelizeUniqueConstraintError` (its `fields` may be absent, the
field-not-determinable case of the spec); `storageFault` is any other
persistence fault. -/
inductive DbError where
  | uniqueConstraint (fields : Option UniqueFields)
  | storageFault
deriving Repr, DecidableEq

/-- Embeds the catch block of `registerUser` (`userService.mjs` lines 53-65):
the error message thrown for each database error. Mirrors
`if (error.fields && error.fields.username) ... else if (error.fields &&
error.fields.email) ... else ...`. -/
def registerCatch : DbError → String
  | .uniqueConstraint (some f) =>
      if f.username then "Username already exists"
      else if f.email then "Email already exists"
      else "Username or email already exists"
  | .uniqueConstraint none => "Username or email already exists"
  | .storageFault => "Error registering user"

/-- Modelled from the spec: `UserModel.create` against the persistence
layer, whose uniqueness constraints on `username` and `email` reject a
conflicting insert atomically and name the violated column. -/
def dbCreate (store : Store) (u : User) : Except DbError Store :=
  if store.any (fun v => v.username == u.username) then
    .error (.uniqueConstraint (some ⟨true, false⟩))
  else if store.any (fun v => v.email == u.email) then
    .error (.uniqueConstraint (some ⟨false, true⟩))
  else
    .ok (store ++ [u])

/-- Embeds `registerUser` of `userService.mjs` lines 31-66: hash the
password, create the record with `role: "user"`, and on failure throw the
message chosen by the catch block. -/
def registerUser (store : Store)
    (username password fname lname email address : String) : Except String Store :=
  match dbCreate store ⟨"user", username, hashPassword password, fname, lname, email, address⟩ with
  | .ok store' => .ok store'
  | .error e => .error (registerCatch e)

/-- Embeds `user.save()`: persist the mutated row, replacing the row it was
read from (the first row matching the username, since `username` is
unique). -/
def saveUser : Store → String → User → Store
  | [], _, _ => []
  | v :: rest, uname, u' =>
      if v.username == uname then u' :: rest else v :: saveUser rest uname u'

/-- Embeds `updateUserProfile` of `userService.mjs` lines 68-89: look up by
username; if found, overwrite `fname`, `lname`, `address` and save; if
absent return `false` (rendered `none`) leaving the store untouched. -/
def updateUserProfile (store : Store)
    (username firstname lastname address : String) : Option User × Store :=
  match findOne store username with
  | none => (none, store)
  | some u =>
      let u' := { u with fname := firstname, lname := lastname, address := address }
      (some u', saveUser store username u')

/-- Claims payload placed in a token and in the `user` field of success
responses: exactly `{role, username, fname, lname, email, address}`
(`userData` in `routes/user.mjs`). -/
structure UserData where
  role : String
  username : String
  fname : String
  lname : String
  email : String
  address : String
deriving Repr, DecidableEq

/-- Embeds the `userData` object literals of `routes/user.mjs`
(lines 48-55 and 161-168): the six listed fields of the user row. -/
def mkUserData (u : User) : UserData :=
  ⟨u.role, u.username, u.fname, u.lname, u.email, u.address⟩

/-- Modelled from the spec: a token issued by the Token Issuer
(jsonwebtoken, plus `src/middleware/verifyToken.mjs`, neither under
`src/`) is self-contained: the claims plus a signature under the signing
secret. -/
structure Token where
  claims : UserData
  signedWith : String
deriving Repr, DecidableEq

/-- Modelled from the spec: `jwt.sign(claims, secret)`. -/
def jwtSign (claims : UserData) (secret : String) : Token := ⟨claims, secret⟩

/-- Modelled from the spec: token verification checks the signature against
the process-wide secret and, on success, decodes exactly the signed
claims; it fails closed otherwise. -/
def jwtVerify (t : Token) (secret : String) : Option UserData :=
  if t.signedWith == secret then some t.claims else none

/-- Modelled from the spec: `jwt.sign` as called by the routes, where the
secret may be `undefined` (the env variable was absent); jsonwebtoken
throws in that case, so no token is produced. -/
def jwtSignOpt (claims : UserData) (secret : Option String) : Option Token :=
  match secret with
  | none => none
  | some k => some (jwtSign claims k)

/-- Embeds `routes/user.mjs` line 22,
`export const secretKey = process.env.SECRET_KEY`: a plain environment
read at module load, with no presence check and no fatal path — the
function is total, so startup succeeds for every environment. -/
def loadSecretKey (env : List (String × String)) : Option String :=
  (env.find? (fun p => p.1 == "SECRET_KEY")).map (fun p => p.2)

/-- Shape of the JSON responses the route handlers send. Absent keys are
`none`. -/
structure Response where
  status : Nat
  error : Option String := none
  msg : Option String := none
  token : Option Token := none
  user : Option UserData := none
deriving Repr, DecidableEq

/-- Embeds the login handler of `routes/user.mjs` lines 27-79 (after input
validation). When `loginUser` returned `false`, the JS reads `.role` off
the boolean, yielding `undefined`, so `isValid` is `false` and the 401
branch runs; an unknown role takes the same 401 branch. A throw from
`jwt.sign` (missing secret) is caught and answered with the 500 response
of line 77. -/
def loginRoute (store : Store) (secret : Option String)
    (username password : String) : Response :=
  match (loginUser store username password).1 with
  | none => { status := 401, error := some "Invalid username or password" }
  | some u =>
      if u.role == "admin" || u.role == "user" then
        match jwtSignOpt (mkUserData u) secret with
        | some token =>
            { status := 200, token := some token, user := some (mkUserData u) }
        | none => { status := 500, error := some "Internal server error" }
      else
        { status := 401, error := some "Invalid username or password" }

/-- Embeds the error mapping of the register handler (`routes/user.mjs`
lines 108-124): three recognised duplicate messages pass through with
status 401; everything else collapses to the 500 internal-error
response. -/
def registerRouteCatch (m : String) : Response :=
  if m == "Username already exists" || m == "Email already exists" ||
      m == "Email or username already exists" then
    { status := 401, error := some m }
  else
    { status := 500, error := some "Internal server error" }

/-- Embeds the register handler of `routes/user.mjs` lines 82-125 (after
input validation): on success status 201; on a thrown service error the
catch mapping above. -/
def registerRoute (store : Store)
    (username password fname lname email address : String) : Response × Store :=
  match registerUser store username password fname lname email address with
  | .ok store' => ({ status := 201, msg := some "Account created successfully" }, store')
  | .error m => (registerRouteCatch m, store)

/-- Embeds the updateProfile handler of `routes/user.mjs` lines 137-186
(after input validation). On a found user: reissue a token over the fresh
`userData` and answer 200; on `false`: the 400 "Profile update failed"
response. The catch block of line 183 references an undefined
`errorMessage` binding and itself throws, which the framework answers with
a bare 500; modelled as a 500 response with no message. -/
def updateRoute (store : Store) (secret : Option String)
    (username firstname lastname address : String) : Response × Store :=
  let r := updateUserProfile store username firstname lastname address
  match r.1 with
  | some u =>
      match jwtSignOpt (mkUserData u) secret with
      | some token =>
          ({ status := 200, msg := some "Profile updated successfully",
             token := some token, user := some (mkUserData u) }, r.2)
      | none => ({ status := 500 }, r.2)
  | none => ({ status := 400, msg := some "Profile update failed" }, r.2)

/-- Sample stored user for concrete evaluations. -/
def demoUser : User :=
  ⟨"user", "alice", hashPassword "secret1", "Alice", "Lee", "alice@x.com", "Addr1"⟩

/-- Fields of a user row that a profile update must not touch. -/
def updateFrame (u u' : User) : Prop :=
  u.username = u'.username ∧ u.email = u'.email ∧ u.role = u'.role ∧
    u.hashed_password = u'.hashed_password

/-- C1: evaluation of the register error path at every database-error shape.
Duplicate-username and duplicate-email violations surface status 401 with
the precise message, but a uniqueness violation whose violated field is
not determinable makes the service throw "Username or email already
exists", which the route's check (looking for "Email or username already
exists") does not recognise, so the caller surfaces the 500 internal-error
response instead of the claimed duplicate message; other persistence
faults surface the 500 response. -/
theorem c1_register_duplicate_messages :
    registerRouteCatch (registerCatch (.uniqueConstraint (some ⟨true, true⟩))) =
      { status := 401, error := some "Username already exists" } ∧
    registerRouteCatch (registerCatch (.uniqueConstraint (some ⟨true, false⟩))) =
      { status := 401, error := some "Username already exists" } ∧
    registerRouteCatch (registerCatch (.uniqueConstraint (some ⟨false, true⟩))) =
      { status := 401, error := some "Email already exists" } ∧
    registerCatch (.uniqueConstraint none) = "Username or email already exists" ∧
    registerRouteCatch (registerCatch (.uniqueConstraint none)) =
      { status := 500, error := some "Internal server error" } ∧
    registerRouteCatch (registerCatch (.uniqueConstraint (some ⟨false, false⟩))) =
      { status := 500, error := some "Internal server error" } ∧
    registerRouteCatch (registerCatch .storageFault) =
      { status := 500, error := some "Internal server error" } := by
  refine ⟨rfl, rfl, rfl, rfl, rfl, rfl, rfl⟩

/-- C2: evaluation of the code in an environment with no SECRET_KEY. Module
load is a plain, total environment read, so startup succeeds and binds the
secret to nothing; a subsequent login with valid credentials still runs
and reaches the signing step, which fails per-request with the 500
response — startup is not fatal and the operation does proceed toward
signing with a missing secret. -/
theorem c2_missing_secret_not_startup_fatal :
    loadSecretKey [("PORT", "3000")] = none ∧
    loginRoute [demoUser] (loadSecretKey [("PORT", "3000")]) "alice" "secret1" =
      { status := 500, error := some "Internal server error" } := by
  refine ⟨rfl, by decide⟩

/-- C3 counterexample: the two login failure modes are not distinguishable
at the workflow's result boundary. With the user absent the outcome is
`none` (the JS `false`), and with the user present but the password
mismatching the outcome is the same `none`: the results are equal, so no
caller can tell `UserNotFound` from `InvalidCredentials` from the
workflow's result. -/
theorem c3_login_failures_indistinguishable_cex :
    findOne [] "alice" = none ∧
    findOne [demoUser] "alice" = some demoUser ∧
    comparePasswords demoUser.hashed_password "wrong" = false ∧
    (loginUser [] "alice" "secret1").1 = none ∧
    (loginUser [demoUser] "alice" "wrong").1 = none ∧
    (loginUser [] "alice" "secret1").1 = (loginUser [demoUser] "alice" "wrong").1 := by
  refine ⟨rfl, by decide, by decide, rfl, by decide, by decide⟩

/-- C3 (amended): both login failure modes collapse to the same outcome
`false` (`none`) already at the workflow's result boundary — if the
username is absent the result is `none`, and if the user exists but the
password does not verify the result is the same `none` — so the caller
receives one unified failure value for both. -/
theorem c3_login_failures_same_outcome (store : Store) (username password : String) :
    (findOne store username = none → (loginUser store username password).1 = none) ∧
    (∀ u, findOne store username = some u →
      comparePasswords u.hashed_password password = false →
      (loginUser store username password).1 = none) := by
  constructor
  · intro h
    simp [loginUser, h]
  · intro u h hc
    simp [loginUser, h, hc]

/-- C3 witness: the amended theorem applied at concrete inputs covering
both failure modes. -/
theorem c3_login_failures_same_outcome_witness :
    (loginUser [] "alice" "secret1").1 = none ∧
    (loginUser [demoUser] "alice" "wrong").1 = none :=
  ⟨(c3_login_failures_same_outcome [] "alice" "secret1").1 rfl,
   (c3_login_failures_same_outcome [demoUser] "alice" "wrong").2 demoUser (by decide) (by decide)⟩

/-- C6: round-trip of the Token Issuer — verifying a token issued from a
claims set under the process-wide secret yields exactly that claims set,
field for field. -/
theorem c6_token_roundtrip (c : UserData) (k : String) :
    jwtVerify (jwtSign c k) k = some c := by
  simp [jwtVerify, jwtSign]

/-- C10: loginUser is read-only — for every store, username and password,
the credential store after a login call is exactly the store before it,
whether the login succeeds or fails. -/
theorem c10_loginUser_readonly (store : Store) (username password : String) :
    (loginUser store username password).2 = store := by
  unfold loginUser
  cases findOne store username with
  | none => rfl
  | some u => by_cases h : comparePasswords u.hashed_password password <;> simp [h]

theorem updateFrame_refl (u : User) : updateFrame u u := ⟨rfl, rfl, rfl, rfl⟩

theorem forall2_updateFrame_refl (l : Store) : List.Forall₂ updateFrame l l := by
  induction l with
  | nil => exact List.Forall₂.nil
  | cons v rest ih => exact List.Forall₂.cons (updateFrame_refl v) ih

theorem saveUser_frame (uname f ln a : String) :
    ∀ (store : Store) (u : User), findOne store uname = some u →
      List.Forall₂ updateFrame store
        (saveUser store uname { u with fname := f, lname := ln, address := a }) := by
  intro store
  induction store with
  | nil => intro u h; simp [findOne] at h
  | cons v rest ih =>
      intro u h
      by_cases hv : (v.username == uname) = true
      · have hu : v = u := by
          simpa [findOne, List.find?_cons_of_pos, hv] using h
        simp only [saveUser, hv, if_true]
        exact List.Forall₂.cons (hu ▸ ⟨rfl, rfl, rfl, rfl⟩) (forall2_updateFrame_refl rest)
      · have h' : findOne rest uname = some u := by
          simpa [findOne, List.find?_cons_of_neg, hv] using h
        simp only [saveUser, hv, if_false]
        exact List.Forall₂.cons (updateFrame_refl v) (ih u h')

/-- C4: frame property of profile update — for every store and every input,
each row of the store after `updateUserProfile` stands in `updateFrame`
with the corresponding row before it: its `username`, `email`, `role` and
`hashed_password` are unchanged (only `fname`, `lname`, `address` may
differ), and no row is added or removed. -/
theorem c4_updateProfile_frame (store : Store)
    (username firstname lastname address : String) :
    List.Forall₂ updateFrame store
      (updateUserProfile store username firstname lastname address).2 := by
  cases h : findOne store username with
  | none => simp only [updateUserProfile, h]; exact forall2_updateFrame_refl store
  | some u =>
      simp only [updateUserProfile, h]
      exact saveUser_frame username firstname lastname address store u h

/-- C5: a stored role outside {"user", "admin"} fails login even when the
password verifies — the response is the 401 invalid-username-or-password
response, whose `token` field is `none` (no token issued). -/
theorem c5_unknown_role_rejected (store : Store) (secret : Option String)
    (username password : String) (u : User)
    (hfind : findOne store username = some u)
    (hmatch : comparePasswords u.hashed_password password = true)
    (hu : u.role ≠ "user") (ha : u.role ≠ "admin") :
    loginRoute store secret username password =
      { status := 401, error := some "Invalid username or password" } := by
  have hl : (loginUser store username password).1 = some u := by
    simp [loginUser, hfind, hmatch]
  simp [loginRoute, hl, hu, ha]

/-- Sample stored user with a role outside the known set. -/
def legacyUser : User :=
  ⟨"superadmin", "mallory", hashPassword "pw2", "Mal", "Ory", "mallory@x.com", "Addr2"⟩

/-- C5 witness: a concrete user with role "superadmin" and a matching
password is answered with the 401 response. -/
theorem c5_unknown_role_rejected_witness :
    loginRoute [legacyUser] (some "k") "mallory" "pw2" =
      { status := 401, error := some "Invalid username or password" } :=
  c5_unknown_role_rejected [legacyUser] (some "k") "mallory" "pw2" legacyUser
    (by decide) (by decide) (by decide) (by decide)

/-- C8: an updateProfile whose username is absent from the store returns
the failure outcome (`false`, rendered `none`) with the store untouched,
and the route answers the 400 "Profile update failed" response, again with
the store untouched — no record is created or mutated. -/
theorem c8_update_user_not_found (store : Store) (secret : Option String)
    (username firstname lastname address : String)
    (habs : findOne store username = none) :
    updateUserProfile store username firstname lastname address = (none, store) ∧
    updateRoute store secret username firstname lastname address =
      ({ status := 400, msg := some "Profile update failed" }, store) := by
  have h1 : updateUserProfile store username firstname lastname address = (none, store) := by
    simp [updateUserProfile, habs]
  exact ⟨h1, by simp [updateRoute, h1]⟩

/-- C8 witness: updating the profile of the absent username "bob" against
a one-row store fails with the 400 response and leaves the row as it
was. -/
theorem c8_update_user_not_found_witness :
    updateUserProfile [demoUser] "bob" "B" "Ob" "Nowhere" = (none, [demoUser]) ∧
    updateRoute [demoUser] (some "k") "bob" "B" "Ob" "Nowhere" =
      ({ status := 400, msg := some "Profile update failed" }, [demoUser]) :=
  c8_update_user_not_found [demoUser] (some "k") "bob" "B" "Ob" "Nowhere" (by decide)

/-- C9: every record created through registration has role "user" — a
successful `registerUser` appends exactly one record, whose `role` is
"user" and whose remaining fields are the registration inputs (with the
password hashed), so any record in the new store that was not already
stored has role "user". -/
theorem dbCreate_ok (store : Store) (u : User) (s : Store)
    (h : dbCreate store u = .ok s) : s = store ++ [u] := by
  unfold dbCreate at h
  split at h
  · simp at h
  · split at h
    · simp at h
    · exact (Except.ok.inj h).symm

theorem c9_register_role_user (store : Store)
    (username password fname lname email address : String) (store' : Store)
    (hok : registerUser store username password fname lname email address = .ok store') :
    store' = store ++ [⟨"user", username, hashPassword password, fname, lname, email, address⟩] ∧
    ∀ u ∈ store', u ∉ store → u.role = "user" := by
  have h1 : store' =
      store ++ [⟨"user", username, hashPassword password, fname, lname, email, address⟩] := by
    unfold registerUser at hok
    split at hok
    · rename_i s heq
      rw [Except.ok.inj hok] at heq
      exact dbCreate_ok _ _ _ heq
    · simp at hok
  refine ⟨h1, ?_⟩
  intro u hu hnot
  rcases List.mem_append.mp (h1 ▸ hu) with h | h
  · exact absurd h hnot
  · rw [List.mem_singleton.mp h]

/-- C9 witness: registering "alice" into the empty store creates exactly
her record with role "user". -/
theorem c9_register_role_user_witness :
    [demoUser] =
      [] ++ [⟨"user", "alice", hashPassword "secret1", "Alice", "Lee", "alice@x.com", "Addr1"⟩] ∧
    ∀ u ∈ [demoUser], u ∉ ([] : Store) → u.role = "user" :=
  c9_register_role_user [] "alice" "secret1" "Alice" "Lee" "alice@x.com" "Addr1" [demoUser] rfl

theorem loginUser_some (store : Store) (username password : String) (u : User)
    (h : (loginUser store username password).1 = some u) :
    findOne store username = some u := by
  unfold loginUser at h
  cases hf : findOne store username with
  | none => rw [hf] at h; simp at h
  | some v =>
      rw [hf] at h
      by_cases hc : comparePasswords v.hashed_password password = true
      · simp [hc] at h
        rw [h]
      · simp [hc] at h

/-- C7: sanitized success payloads. The claims structure carries exactly
the six fields {role, username, fname, lname, email, address} and is
independent of the stored password hash; on every successful login the
response's `user` field and the issued token's claims are that structure
built from the stored record, and on every successful profile update they
are that structure built from the updated record. -/
theorem c7_success_payload_sanitized (store : Store) (secret : Option String)
    (username password firstname lastname address hash : String) :
    (∀ u : User, mkUserData { u with hashed_password := hash } = mkUserData u) ∧
    ((loginRoute store secret username password).status = 200 →
      ∃ u k, findOne store username = some u ∧ secret = some k ∧
        (loginRoute store secret username password).user = some (mkUserData u) ∧
        (loginRoute store secret username password).token =
          some (jwtSign (mkUserData u) k)) ∧
    ((updateRoute store secret username firstname lastname address).1.status = 200 →
      ∃ u k, (updateUserProfile store username firstname lastname address).1 = some u ∧
        secret = some k ∧
        (updateRoute store secret username firstname lastname address).1.user =
          some (mkUserData u) ∧
        (updateRoute store secret username firstname lastname address).1.token =
          some (jwtSign (mkUserData u) k)) := by
  refine ⟨fun u => rfl, ?_, ?_⟩
  · intro h200
    cases hl : (loginUser store username password).1 with
    | none => rw [loginRoute, hl] at h200; simp at h200
    | some u =>
        by_cases hrole : (u.role == "admin" || u.role == "user") = true
        · cases hs : secret with
          | none =>
              rw [loginRoute, hl] at h200
              simp [hrole, jwtSignOpt, hs] at h200
          | some k =>
              refine ⟨u, k, loginUser_some store username password u hl, rfl, ?_, ?_⟩ <;>
                simp [loginRoute, hl, hrole, jwtSignOpt, hs, jwtSign]
        · rw [loginRoute, hl] at h200
          simp [hrole] at h200
  · intro h200
    cases hu : (updateUserProfile store username firstname lastname address).1 with
    | none =>
        rw [updateRoute] at h200
        simp [hu] at h200
    | some u =>
        cases hs : secret with
        | none =>
            rw [updateRoute] at h200
            simp [hu, jwtSignOpt, hs] at h200
        | some k =>
            refine ⟨u, k, rfl, rfl, ?_, ?_⟩ <;>
              simp [updateRoute, hu, jwtSignOpt, hs, jwtSign]

/-- C7 witness: the theorem applied to a one-row store with a successful
login of "alice" and a successful profile update of "alice". -/
theorem c7_success_payload_sanitized_witness :
    mkUserData { demoUser with hashed_password := "h2" } = mkUserData demoUser ∧
    (∃ u k, findOne [demoUser] "alice" = some u ∧ (some "k" : Option String) = some k ∧
      (loginRoute [demoUser] (some "k") "alice" "secret1").user = some (mkUserData u) ∧
      (loginRoute [demoUser] (some "k") "alice" "secret1").token =
        some (jwtSign (mkUserData u) k)) ∧
    (∃ u k, (updateUserProfile [demoUser] "alice" "Alicia" "Lee" "Addr2").1 = some u ∧
      (some "k" : Option String) = some k ∧
      (updateRoute [demoUser] (some "k") "alice" "Alicia" "Lee" "Addr2").1.user =
        some (mkUserData u) ∧
      (updateRoute [demoUser] (some "k") "alice" "Alicia" "Lee" "Addr2").1.token =
        some (jwtSign (mkUserData u) k)) :=
  ⟨(c7_success_payload_sanitized [demoUser] (some "k") "alice" "secret1"
      "Alicia" "Lee" "Addr2" "h2").1 demoUser,
   (c7_success_payload_sanitized [demoUser] (some "k") "alice" "secret1"
      "Alicia" "Lee" "Addr2" "h2").2.1 (by decide),
   (c7_success_payload_sanitized [demoUser] (some "k") "alice" "secret1"
      "Alicia" "Lee" "Addr2" "h2").2.2 (by decide)⟩
